import Mathlib

/-!
Verification of the trading-app core logic: the trade valuation engine
(App/models.py), the market-data fetcher (App/services.py), and the
portfolio aggregation and batch-refresh views (App/views.py).

Modeling conventions:
* Python Decimal values are modeled as exact rationals.  Python
  round(x, 2) on Decimals quantizes to two places with half-even
  rounding, modeled by round2 below.
* Nullable database columns are Option-valued.  Python truthiness of a
  nullable decimal (None and 0 are both falsy) is pyTruthy.
* Only the Stock columns that the valuation, refresh and report code
  paths read or write are modeled; the unused analyst columns
  (tp1..tp3, sl1..sl3, rsi, ltp1..ltp3, created_at) are omitted.
* The Trade model declares a pl_percent column but immediately shadows
  it with a read-only property of the same name, so the column is never
  readable through the attribute; we model only the property.
-/

namespace TradingApp

/-- Half-even (banker) rounding of a rational to an integer, the rounding
mode Python Decimal quantization uses. -/
def roundHalfEven (q : ℚ) : ℤ :=
  let f : ℤ := ⌊q⌋
  let frac : ℚ := q - f
  if frac < 1/2 then f
  else if 1/2 < frac then f + 1
  else if f % 2 = 0 then f else f + 1

/-- Python round(x, 2) on a Decimal: quantize to two decimal places with
half-even rounding. -/
def round2 (q : ℚ) : ℚ := (roundHalfEven (q * 100) : ℚ) / 100

/-- Python truthiness of a nullable decimal: None and 0 are falsy. -/
def pyTruthy : Option ℚ → Bool
  | none => false
  | some v => decide (v ≠ 0)

/-- The Stock model (App/models.py): the columns read or written by the
valuation, refresh and report logic.  pk is the database primary key. -/
structure StockRec where
  pk : ℕ
  symbol : String
  name : String
  current_price : Option ℚ
  change : Option ℚ
  change_percent : Option ℚ
  volume : Option ℤ
  high : Option ℚ
  low : Option ℚ
deriving DecidableEq

/-- The Trade model (App/models.py).  The owning user is implicit: every
operation below is already restricted to one user's trades.  buy_date is
modeled as an integer day ordinal (only its ordering is ever used). -/
structure Trade where
  stock : StockRec
  quantity : ℕ
  buying_price : ℚ
  buy_date : ℤ
  mtp : Option ℚ
  msl : Option ℚ
  profit_expected : Option ℚ
  profit_percent : Option ℚ
  loss_expected : Option ℚ
  loss_recent : Option ℚ
  pl_ratio : Option ℚ
  rate_difference : Option ℚ
  comments : String
  max_profit : Option ℚ
  min_profit_loss : Option ℚ
deriving DecidableEq

/-- Trade.total_cost property: quantity * buying_price. -/
def Trade.total_cost (t : Trade) : ℚ := (t.quantity : ℚ) * t.buying_price

/-- Trade.current_price property: the associated stock's current price
(the stock foreign key is non-nullable, so self.stock is always set). -/
def Trade.current_price (t : Trade) : Option ℚ := t.stock.current_price

/-- Trade.current_value property: quantity * current_price when the
current price is truthy (present and nonzero), else None. -/
def Trade.current_value (t : Trade) : Option ℚ :=
  match Trade.current_price t with
  | some p => if p ≠ 0 then some ((t.quantity : ℚ) * p) else none
  | none => none

/-- Trade.unrealized_pl property: current_value - total_cost when
current_value is not None, else None. -/
def Trade.unrealized_pl (t : Trade) : Option ℚ :=
  match Trade.current_value t with
  | some cv => some (cv - Trade.total_cost t)
  | none => none

/-- Trade.pl_percent property: round((unrealized_pl / total_cost) * 100, 2)
when total_cost is truthy and unrealized_pl is not None, else 0. -/
def Trade.pl_percent (t : Trade) : ℚ :=
  match Trade.unrealized_pl t with
  | some upl => if Trade.total_cost t ≠ 0 then round2 (upl / Trade.total_cost t * 100) else 0
  | none => 0

/-- Trade.save (App/models.py): recomputes the six derived columns from
quantity, buying_price, mtp, msl and the stock's current price, then
persists.  Python truthiness: a None or zero mtp / msl / buying_price /
current price takes the falsy branch. -/
def Trade.save (t : Trade) : Trade :=
  let pe_pp : Option ℚ × Option ℚ :=
    match t.mtp with
    | some mtp =>
        if mtp ≠ 0 then
          (some ((mtp - t.buying_price) * (t.quantity : ℚ)),
           if t.buying_price ≠ 0 then
             some (round2 ((mtp - t.buying_price) / t.buying_price * 100))
           else none)
        else (none, none)
    | none => (none, none)
  let le : Option ℚ :=
    match t.msl with
    | some msl => if msl ≠ 0 then some ((t.buying_price - msl) * (t.quantity : ℚ)) else none
    | none => none
  let ratio : Option ℚ :=
    match t.mtp, t.msl with
    | some mtp, some msl =>
        if mtp ≠ 0 ∧ msl ≠ 0 ∧ t.buying_price ≠ 0 then
          let profit_per_share := mtp - t.buying_price
          let loss_per_share := t.buying_price - msl
          if loss_per_share > 0 then some (round2 (profit_per_share / loss_per_share))
          else none
        else none
    | _, _ => none
  let rd : Option ℚ :=
    match Trade.current_price t with
    | some cp => if cp ≠ 0 then some (cp - t.buying_price) else none
    | none => none
  let lr : Option ℚ :=
    match t.msl, Trade.current_price t with
    | some msl, some cp =>
        if msl ≠ 0 ∧ cp ≠ 0 then
          if cp < t.buying_price then some ((t.buying_price - cp) * (t.quantity : ℚ))
          else none
        else none
    | _, _ => none
  { t with
    profit_expected := pe_pp.1
    profit_percent := pe_pp.2
    loss_expected := le
    pl_ratio := ratio
    rate_difference := rd
    loss_recent := lr }

/-- The worked example from the spec: a stock quoted at 110. -/
def exampleStock : StockRec :=
  { pk := 1, symbol := "TEST", name := "Test Company", current_price := some 110,
    change := none, change_percent := none, volume := none, high := none, low := none }

/-- The worked example from the spec: quantity 10, bought at 100 with
target 120 and stop 90. -/
def exampleTrade : Trade :=
  { stock := exampleStock, quantity := 10, buying_price := 100, buy_date := 0,
    mtp := some 120, msl := some 90,
    profit_expected := none, profit_percent := none, loss_expected := none,
    loss_recent := none, pl_ratio := none, rate_difference := none,
    comments := "", max_profit := none, min_profit_loss := none }

/-- A trade whose stock has a present current price equal to 0. -/
def zeroPriceTrade : Trade :=
  { exampleTrade with stock := { exampleStock with current_price := some 0 } }

/-- C1: saving the example trade (quantity 10, buying price 100, mtp 120,
msl 90, stock price 110) and reading its derived fields yields
total_cost 1000, current_value 1100, unrealized_pl 100, pl_percent 10,
profit_expected 200, profit_percent 20, loss_expected 100, pl_ratio 2,
rate_difference 10, and loss_recent undefined. -/
theorem trade_valuation_example :
    Trade.total_cost (Trade.save exampleTrade) = 1000 ∧
    Trade.current_value (Trade.save exampleTrade) = some 1100 ∧
    Trade.unrealized_pl (Trade.save exampleTrade) = some 100 ∧
    Trade.pl_percent (Trade.save exampleTrade) = 10 ∧
    (Trade.save exampleTrade).profit_expected = some 200 ∧
    (Trade.save exampleTrade).profit_percent = some 20 ∧
    (Trade.save exampleTrade).loss_expected = some 100 ∧
    (Trade.save exampleTrade).pl_ratio = some 2 ∧
    (Trade.save exampleTrade).rate_difference = some 10 ∧
    (Trade.save exampleTrade).loss_recent = none := by
  refine ⟨?_, ?_, ?_, ?_, ?_, ?_, ?_, ?_, ?_, ?_⟩ <;>
    norm_num [Trade.save, Trade.total_cost, Trade.current_value, Trade.unrealized_pl,
      Trade.pl_percent, Trade.current_price, exampleTrade, exampleStock, round2, roundHalfEven]

/-- C8: recomputation is idempotent; saving twice with unchanged inputs
produces the same derived values as saving once. -/
theorem trade_save_idempotent (t : Trade) : Trade.save (Trade.save t) = Trade.save t := rfl

/-- C9: recomputation writes only the six derived columns; the stock
reference, the input fields quantity, buying_price, buy_date, mtp, msl,
comments, and the performance fields max_profit and min_profit_loss are
unchanged by Trade.save. -/
theorem trade_save_frame (t : Trade) :
    (Trade.save t).stock = t.stock ∧
    (Trade.save t).quantity = t.quantity ∧
    (Trade.save t).buying_price = t.buying_price ∧
    (Trade.save t).buy_date = t.buy_date ∧
    (Trade.save t).mtp = t.mtp ∧
    (Trade.save t).msl = t.msl ∧
    (Trade.save t).comments = t.comments ∧
    (Trade.save t).max_profit = t.max_profit ∧
    (Trade.save t).min_profit_loss = t.min_profit_loss :=
  ⟨rfl, rfl, rfl, rfl, rfl, rfl, rfl, rfl, rfl⟩

/-- C6 counterexample: a stock whose current price is present and equal
to 0 is treated like an absent price, so current_value is None rather
than quantity * 0, and rate_difference is None rather than
0 - buying_price. -/
theorem trade_zero_price_cex :
    zeroPriceTrade.stock.current_price = some 0 ∧
    Trade.current_value zeroPriceTrade ≠ some ((zeroPriceTrade.quantity : ℚ) * 0) ∧
    (Trade.save zeroPriceTrade).rate_difference ≠ some (0 - zeroPriceTrade.buying_price) := by
  refine ⟨rfl, ?_, ?_⟩ <;>
    simp [Trade.current_value, Trade.current_price, Trade.save, zeroPriceTrade,
      exampleTrade, exampleStock]

/-- C6 (amended): for a trade whose stock has a present and nonzero
current price, current_value = quantity * price and, after saving,
rate_difference = price - buying_price; both are undefined when the
current price is absent or zero (Python truthiness treats a zero price
like an absent one). -/
theorem trade_current_value_nonzero (t : Trade) :
    (∀ c : ℚ, t.stock.current_price = some c → c ≠ 0 →
      Trade.current_value t = some ((t.quantity : ℚ) * c) ∧
      (Trade.save t).rate_difference = some (c - t.buying_price)) ∧
    (t.stock.current_price = none ∨ t.stock.current_price = some 0 →
      Trade.current_value t = none ∧ (Trade.save t).rate_difference = none) := by
  constructor
  · intro c hc h0
    constructor
    · simp [Trade.current_value, Trade.current_price, hc, h0]
    · simp only [Trade.save, Trade.current_price, hc]
      simp [h0]
  · intro h
    rcases h with h | h
    · constructor
      · simp [Trade.current_value, Trade.current_price, h]
      · simp [Trade.save, Trade.current_price, h]
    · constructor
      · simp [Trade.current_value, Trade.current_price, h]
      · simp [Trade.save, Trade.current_price, h]

/-- C6 witness: the amended theorem applied to the example trade (price
110) and to the zero-price trade. -/
theorem trade_current_value_nonzero_witness :
    Trade.current_value exampleTrade = some ((exampleTrade.quantity : ℚ) * 110) ∧
    (Trade.save exampleTrade).rate_difference = some (110 - exampleTrade.buying_price) ∧
    Trade.current_value zeroPriceTrade = none ∧
    (Trade.save zeroPriceTrade).rate_difference = none := by
  refine ⟨?_, ?_, ?_, ?_⟩
  · exact ((trade_current_value_nonzero exampleTrade).1 110 rfl (by norm_num)).1
  · exact ((trade_current_value_nonzero exampleTrade).1 110 rfl (by norm_num)).2
  · exact ((trade_current_value_nonzero zeroPriceTrade).2 (Or.inr rfl)).1
  · exact ((trade_current_value_nonzero zeroPriceTrade).2 (Or.inr rfl)).2

/-! ## Portfolio dashboard (App/views.py, portfolio_dashboard)

The view filters one user's trades by an optional case-insensitive
symbol, sorts them by a sort key, and computes portfolio totals.  The
profit branch builds an annotation with Coalesce(stock price, 0) but
then calls order_by on the Python expression minus-quote-pl-quote:
unary minus applied to a str raises TypeError before any query runs.
The loss branch annotates quantity * stock price - quantity * buying
price WITHOUT Coalesce, so a missing price yields a NULL ranking term
whose position under ascending order is decided by the database (nulls
first or nulls last); we keep that database choice as a parameter. -/

/-- SQL ascending comparison on a nullable ranking term; the placement
of NULL is database-dependent, abstracted by the nullsFirst flag. -/
def optionLe (nullsFirst : Bool) : Option ℚ → Option ℚ → Bool
  | none, none => true
  | none, some _ => nullsFirst
  | some _, none => !nullsFirst
  | some a, some b => decide (a ≤ b)

/-- The loss-branch annotation (views.py lines 209-216): quantity *
stock current price - quantity * buying_price, NULL when the stock has
no current price (there is no Coalesce in this branch). -/
def lossRankTerm (t : Trade) : Option ℚ :=
  match t.stock.current_price with
  | some cp => some ((t.quantity : ℚ) * cp - (t.quantity : ℚ) * t.buying_price)
  | none => none

/-- Modelled from the spec for comparison with the code: the ranking
term as the spec words it, quantity * (current_price or 0) - quantity *
buying_price, so that a stock with no current price contributes 0. -/
def specLossRank (t : Trade) : ℚ :=
  (t.quantity : ℚ) * t.stock.current_price.getD 0 - (t.quantity : ℚ) * t.buying_price

/-- The sort dispatch of portfolio_dashboard.  The profit branch is the
Python expression order_by(-"pl"): unary minus on a str raises
TypeError when the argument is evaluated, so that branch is an error.
An unrecognized key leaves the queryset order unchanged. -/
def sortTrades (ts : List Trade) (sort_by : String) (nullsFirst : Bool) :
    Except String (List Trade) :=
  if sort_by = "symbol" then
    .ok (List.insertionSort (fun a b => a.stock.symbol ≤ b.stock.symbol) ts)
  else if sort_by = "date" then
    .ok (List.insertionSort (fun a b => b.buy_date ≤ a.buy_date) ts)
  else if sort_by = "profit" then
    .error "TypeError: bad operand type for unary minus: str"
  else if sort_by = "loss" then
    .ok (List.insertionSort
      (fun a b => optionLe nullsFirst (lossRankTerm a) (lossRankTerm b) = true) ts)
  else .ok ts

/-- The totals block of portfolio_dashboard (views.py lines 218-232):
total cost over all holdings, total value over holdings with a truthy
current price, their difference, and the rounded percentage guarded by
the truthiness of total cost. -/
structure PortfolioTotals where
  total_cost : ℚ
  total_value : ℚ
  unrealized_pl : ℚ
  pl_percentage : ℚ
deriving DecidableEq

/-- Compute the totals of portfolio_dashboard over the holdings list. -/
def portfolioTotals (ts : List Trade) : PortfolioTotals :=
  let total_cost := (ts.map (fun t => (t.quantity : ℚ) * t.buying_price)).sum
  let total_value := ((ts.filter (fun t => pyTruthy t.stock.current_price)).map
      (fun t => (t.quantity : ℚ) * t.stock.current_price.getD 0)).sum
  let upl := total_value - total_cost
  let plp := if total_cost ≠ 0 then round2 (upl / total_cost * 100) else 0
  { total_cost := total_cost, total_value := total_value,
    unrealized_pl := upl, pl_percentage := plp }

/-- The context rendered by portfolio_dashboard. -/
structure DashboardContext where
  holdings : List Trade
  total_cost : ℚ
  total_value : ℚ
  unrealized_pl : ℚ
  pl_percentage : ℚ
  active_trades : ℕ
deriving DecidableEq

/-- portfolio_dashboard (App/views.py): filter by symbol (iexact,
skipped when the filter string is empty), sort, then compute totals.
An error raised while sorting propagates out of the view. -/
def portfolio_dashboard (trades : List Trade) (stock_filter : String)
    (sort_by : String) (nullsFirst : Bool) : Except String DashboardContext :=
  let filtered := if stock_filter ≠ "" then
      trades.filter (fun t => t.stock.symbol.toLower = stock_filter.toLower)
    else trades
  match sortTrades filtered sort_by nullsFirst with
  | .error e => .error e
  | .ok holdings =>
      let totals := portfolioTotals holdings
      .ok { holdings := holdings, total_cost := totals.total_cost,
            total_value := totals.total_value, unrealized_pl := totals.unrealized_pl,
            pl_percentage := totals.pl_percentage, active_trades := holdings.length }

/-- A holding with a quoted stock: term 1 * 2 - 1 * 10 = -8. -/
def lossX : Trade :=
  { stock := { pk := 2, symbol := "XX", name := "X", current_price := some 2,
               change := none, change_percent := none, volume := none, high := none, low := none },
    quantity := 1, buying_price := 10, buy_date := 0, mtp := none, msl := none,
    profit_expected := none, profit_percent := none, loss_expected := none,
    loss_recent := none, pl_ratio := none, rate_difference := none,
    comments := "", max_profit := none, min_profit_loss := none }

/-- A holding whose stock has no quote; the spec ranking term would be
1 * 0 - 1 * 5 = -5 but the code annotation is NULL. -/
def lossN : Trade :=
  { stock := { pk := 3, symbol := "NN", name := "N", current_price := none,
               change := none, change_percent := none, volume := none, high := none, low := none },
    quantity := 1, buying_price := 5, buy_date := 0, mtp := none, msl := none,
    profit_expected := none, profit_percent := none, loss_expected := none,
    loss_recent := none, pl_ratio := none, rate_difference := none,
    comments := "", max_profit := none, min_profit_loss := none }

/-- A holding with a quoted stock: term 1 * 3 - 1 * 1 = 2. -/
def lossY : Trade :=
  { stock := { pk := 4, symbol := "YY", name := "Y", current_price := some 3,
               change := none, change_percent := none, volume := none, high := none, low := none },
    quantity := 1, buying_price := 1, buy_date := 0, mtp := none, msl := none,
    profit_expected := none, profit_percent := none, loss_expected := none,
    loss_recent := none, pl_ratio := none, rate_difference := none,
    comments := "", max_profit := none, min_profit_loss := none }

/-- C2: for every trade list and filter, requesting the profit sort
raises a TypeError (views.py line 207 applies unary minus to the string
literal pl instead of passing the string -pl), so the dashboard never
returns holdings for that sort key. -/
theorem portfolio_profit_sort_raises (trades : List Trade) (stock_filter : String)
    (nullsFirst : Bool) :
    portfolio_dashboard trades stock_filter "profit" nullsFirst =
      .error "TypeError: bad operand type for unary minus: str" := rfl

/-- The sum over holdings with a truthy price equals the sum over
holdings with a present price: a present-but-zero price contributes a
zero term either way. -/
theorem sum_value_truthy_eq_isSome (ts : List Trade) :
    ((ts.filter (fun t => pyTruthy t.stock.current_price)).map
        (fun t => (t.quantity : ℚ) * t.stock.current_price.getD 0)).sum =
    ((ts.filter (fun t => t.stock.current_price.isSome)).map
        (fun t => (t.quantity : ℚ) * t.stock.current_price.getD 0)).sum := by
  induction ts with
  | nil => rfl
  | cons t ts ih =>
    cases h : t.stock.current_price with
    | none =>
      have h1 : pyTruthy t.stock.current_price = false := by simp [pyTruthy, h]
      have h2 : t.stock.current_price.isSome = false := by simp [h]
      simp [List.filter_cons, h1, h2, ih]
    | some v =>
      by_cases hv : v = 0
      · subst hv
        have h1 : pyTruthy (some (0 : ℚ)) = false := by simp [pyTruthy]
        have h2 : t.stock.current_price.isSome = true := by simp [h]
        simp [List.filter_cons, h, h1, h2, ih]
      · have h1 : pyTruthy t.stock.current_price = true := by simp [pyTruthy, h, hv]
        have h2 : t.stock.current_price.isSome = true := by simp [h]
        simp [List.filter_cons, h1, h2, ih]

/-- C3: for every list of filtered holdings, total_cost sums quantity *
buying_price over all of them, total_value sums quantity * price only
over holdings whose stock has a present current price, unrealized_pl is
their difference, and pl_percentage is the rounded ratio when total
cost is nonzero, else 0. -/
theorem portfolio_totals_spec (ts : List Trade) :
    (portfolioTotals ts).total_cost = (ts.map (fun t => (t.quantity : ℚ) * t.buying_price)).sum ∧
    (portfolioTotals ts).total_value =
      ((ts.filter (fun t => t.stock.current_price.isSome)).map
        (fun t => (t.quantity : ℚ) * t.stock.current_price.getD 0)).sum ∧
    (portfolioTotals ts).unrealized_pl =
      (portfolioTotals ts).total_value - (portfolioTotals ts).total_cost ∧
    (portfolioTotals ts).pl_percentage =
      if (portfolioTotals ts).total_cost ≠ 0 then
        round2 ((portfolioTotals ts).unrealized_pl / (portfolioTotals ts).total_cost * 100)
      else 0 :=
  ⟨rfl, sum_value_truthy_eq_isSome ts, rfl, rfl⟩

/-- optionLe is total for either null placement. -/
theorem optionLe_total (nf : Bool) (x y : Option ℚ) :
    optionLe nf x y = true ∨ optionLe nf y x = true := by
  cases x <;> cases y <;> cases nf <;> simp [optionLe] <;> exact le_total _ _

/-- optionLe is transitive for either null placement. -/
theorem optionLe_trans (nf : Bool) (x y z : Option ℚ)
    (hxy : optionLe nf x y = true) (hyz : optionLe nf y z = true) :
    optionLe nf x z = true := by
  cases x <;> cases y <;> cases z <;> cases nf <;>
    simp_all [optionLe] <;> exact le_trans hxy hyz

/-- C7 counterexample: a holding with no stock quote gets a NULL
ranking term, not the 0 the claim requires, and with three concrete
holdings the dashboard loss order differs from the claimed order under
both database null placements (the claimed ascending order by the
coalesced term would be XX, NN, YY). -/
theorem loss_sort_null_rank_cex :
    lossRankTerm lossN ≠ some (specLossRank lossN) ∧
    Except.map (fun c => c.holdings.map (fun t => t.stock.symbol))
        (portfolio_dashboard [lossN, lossX, lossY] "" "loss" true) ≠
      .ok ["XX", "NN", "YY"] ∧
    Except.map (fun c => c.holdings.map (fun t => t.stock.symbol))
        (portfolio_dashboard [lossN, lossX, lossY] "" "loss" false) ≠
      .ok ["XX", "NN", "YY"] := by
  have hls : ("loss" : String) ≠ "symbol" := by decide
  have hld : ("loss" : String) ≠ "date" := by decide
  have hlp : ("loss" : String) ≠ "profit" := by decide
  have hNnone : lossRankTerm lossN = none := rfl
  have hXY : optionLe true (lossRankTerm lossX) (lossRankTerm lossY) = true := by
    norm_num [optionLe, lossRankTerm, lossX, lossY]
  have hNX : optionLe true (lossRankTerm lossN) (lossRankTerm lossX) = true := by
    simp [optionLe, lossRankTerm, lossN, lossX]
  have hXYf : optionLe false (lossRankTerm lossX) (lossRankTerm lossY) = true := by
    norm_num [optionLe, lossRankTerm, lossX, lossY]
  have hNXf : optionLe false (lossRankTerm lossN) (lossRankTerm lossX) = false := by
    simp [optionLe, lossRankTerm, lossN, lossX]
  have hNYf : optionLe false (lossRankTerm lossN) (lossRankTerm lossY) = false := by
    simp [optionLe, lossRankTerm, lossN, lossY]
  refine ⟨?_, ?_, ?_⟩
  · rw [hNnone]
    exact fun h => Option.noConfusion h
  · simp only [portfolio_dashboard, sortTrades, List.insertionSort, List.orderedInsert,
      Except.map]
    simp [hls, hld, hlp, hXY, hNX]
    decide
  · simp only [portfolio_dashboard, sortTrades, List.insertionSort, List.orderedInsert,
      Except.map]
    simp [hls, hld, hlp, hXYf, hNXf, hNYf]
    decide

/-- C7 (amended): the loss view orders holdings ascending by the
nullable annotation quantity * current_price - quantity * buying_price;
a holding with a present current price ranks by exactly the claimed
term, while a holding with no current price carries a NULL ranking term
placed according to the database null ordering rather than ranking as a
flat 0. -/
theorem loss_sort_null_rank :
    (∀ (t : Trade) (c : ℚ), t.stock.current_price = some c →
      lossRankTerm t = some (specLossRank t)) ∧
    (∀ t : Trade, t.stock.current_price = none → lossRankTerm t = none) ∧
    (∀ (ts : List Trade) (nf : Bool), ∃ c : DashboardContext,
      portfolio_dashboard ts "" "loss" nf = .ok c ∧
      List.Pairwise (fun a b => optionLe nf (lossRankTerm a) (lossRankTerm b) = true)
        c.holdings) := by
  refine ⟨?_, ?_, ?_⟩
  · intro t c h
    simp [lossRankTerm, specLossRank, h]
  · intro t h
    simp [lossRankTerm, h]
  · intro ts nf
    refine ⟨_, rfl, ?_⟩
    haveI : IsTotal Trade
        (fun a b => optionLe nf (lossRankTerm a) (lossRankTerm b) = true) :=
      ⟨fun a b => optionLe_total nf (lossRankTerm a) (lossRankTerm b)⟩
    haveI : IsTrans Trade
        (fun a b => optionLe nf (lossRankTerm a) (lossRankTerm b) = true) :=
      ⟨fun a b c => optionLe_trans nf (lossRankTerm a) (lossRankTerm b) (lossRankTerm c)⟩
    exact List.sorted_insertionSort _ ts

/-- C7 witness: the amended theorem applied to the concrete holdings
lossX (quoted at 2, so its term is the claimed -8) and lossN (no quote,
so its term is NULL), and to a concrete one-element loss view. -/
theorem loss_sort_null_rank_witness :
    lossRankTerm lossX = some (specLossRank lossX) ∧
    lossRankTerm lossN = none ∧
    (∃ c : DashboardContext, portfolio_dashboard [lossX] "" "loss" true = .ok c ∧
      List.Pairwise (fun a b => optionLe true (lossRankTerm a) (lossRankTerm b) = true)
        c.holdings) :=
  ⟨loss_sort_null_rank.1 lossX 2 rfl,
   loss_sort_null_rank.2.1 lossN rfl,
   loss_sort_null_rank.2.2 [lossX] true⟩

/-! ## Market-data fetcher (App/services.py, fetch_stock_from_psx)

The provider response body is an arbitrary JSON value, modeled by JVal.
The function catches requests.RequestException only; in the requests
library in use, a JSON body that fails to decode raises the requests
JSONDecodeError, a RequestException subclass, hence is caught.  A body
that decodes to a non-dict value, however, makes payload.get (or, for a
truthy non-dict data field, data.get) raise AttributeError, which is
not a RequestException and escapes the function; the embedding returns
Except.error for exactly those paths. -/

/-- A JSON value as returned by response.json(). -/
inductive JVal where
  | null
  | bool (b : Bool)
  | num (q : ℚ)
  | str (s : String)
  | arr (elems : List JVal)
  | obj (fields : List (String × JVal))

/-- Python truthiness of a JSON value. -/
def JVal.truthy : JVal → Bool
  | .null => false
  | .bool b => b
  | .num q => decide (q ≠ 0)
  | .str s => decide (s ≠ "")
  | .arr xs => !xs.isEmpty
  | .obj fs => !fs.isEmpty

/-- Whether a JSON value is null (models an `is None` check, folding a
missing key and JSON null together, as dict.get does). -/
def JVal.isNull : JVal → Bool
  | .null => true
  | _ => false

/-- Python dict.get on a decoded JSON object: the value under the key,
or None when the key is missing. -/
def dictGet (fs : List (String × JVal)) (k : String) : JVal :=
  match fs.lookup k with
  | some v => v
  | none => .null

/-- The outcome of the single HTTP GET: either a raised
requests.RequestException (network error, timeout, or an undecodable
JSON body) or a status code together with the decoded body. -/
inductive HttpResult where
  | requestError (msg : String)
  | response (status : ℕ) (body : Except String JVal)

/-- The provider as a function of the request timeout we pass it. -/
def HttpWorld : Type := ℚ → HttpResult

/-- The fixed request timeout passed to requests.get (10 seconds). -/
def PSX_TIMEOUT : ℚ := 10

/-- The normalized quote dict returned on success.  Field values are
raw JSON values: the code only checks that price is not None. -/
structure Quote where
  symbol : String
  name : String
  price : JVal
  change : JVal
  change_percent : JVal
  volume : JVal
  high : JVal
  low : JVal

/-- fetch_stock_from_psx (App/services.py).  The symbol-to-name table
COMPANY_NAMES lives in company_names.py, which is not among the
sources; its contents are irrelevant here, so it is a parameter.
Except.error models an exception escaping the function. -/
def fetch_stock_from_psx (table : List (String × String)) (symbol : String)
    (w : HttpWorld) : Except String (Option Quote) :=
  if symbol = "" then .ok none
  else
    match w PSX_TIMEOUT with
    | .requestError _ => .ok none
    | .response status body =>
      if status ≠ 200 then .ok none
      else
        match body with
        | .error _ => .ok none
        | .ok payload =>
          match payload with
          | .obj pf =>
            if !(dictGet pf "success").truthy then .ok none
            else
              match dictGet pf "data" with
              | .obj df =>
                if (dictGet df "price").isNull then .ok none
                else .ok (some
                  { symbol := symbol,
                    name := (table.lookup symbol.toUpper).getD symbol.toUpper,
                    price := dictGet df "price",
                    change := dictGet df "change",
                    change_percent := dictGet df "changePercent",
                    volume := dictGet df "volume",
                    high := dictGet df "high",
                    low := dictGet df "low" })
              | d =>
                if !d.truthy then .ok none
                else .error "AttributeError: data object has no attribute get"
          | _ => .error "AttributeError: payload object has no attribute get"

/-! ## Batch price refresh (App/views.py, refresh_stock_prices_api)

The per-stock loop body is modeled against an oracle giving, for each
symbol, what fetch_stock_from_psx plus the subsequent update produced:
a market-data dict, a None result, or a raised exception (anything the
blanket except inside the loop catches, including an AttributeError
escaping the fetcher or a database error while saving).  Numeric dict
values are modeled as the stored column types. -/

/-- The numeric fields of a fetched market-data dict as stored. -/
structure StockQuote where
  price : Option ℚ
  change : Option ℚ
  change_percent : Option ℚ
  volume : Option ℤ
  high : Option ℚ
  low : Option ℚ
deriving DecidableEq

/-- What one iteration observes for one stock. -/
inductive RefreshOutcome where
  | quote (md : StockQuote)
  | noData
  | exn (msg : String)

/-- Overwrite the stock quote columns from the fetched data. -/
def updateStock (s : StockRec) (md : StockQuote) : StockRec :=
  { s with
    current_price := md.price
    change := md.change
    change_percent := md.change_percent
    volume := md.volume
    high := md.high
    low := md.low }

/-- The response serialization float(x) if x else None on a nullable
decimal column: a stored 0 (falsy) serializes as null. -/
def serializeDec (v : Option ℚ) : Option ℚ :=
  match v with
  | some x => if x ≠ 0 then some x else none
  | none => none

/-- The response serialization int(x) if x else None on the nullable
volume column. -/
def serializeInt (v : Option ℤ) : Option ℤ :=
  match v with
  | some x => if x ≠ 0 then some x else none
  | none => none

/-- One entry of the updated_stocks response list. -/
structure UpdatedEntry where
  id : ℕ
  symbol : String
  current_price : Option ℚ
  change : Option ℚ
  change_percent : Option ℚ
  volume : Option ℤ
  high : Option ℚ
  low : Option ℚ
deriving DecidableEq

/-- Serialize one refreshed stock into its response entry
(views.py lines 366-375). -/
def serializeStock (s : StockRec) : UpdatedEntry :=
  { id := s.pk, symbol := s.symbol,
    current_price := serializeDec s.current_price,
    change := serializeDec s.change,
    change_percent := serializeDec s.change_percent,
    volume := serializeInt s.volume,
    high := serializeDec s.high,
    low := serializeDec s.low }

/-- One entry of the errors response list. -/
structure ErrorEntry where
  symbol : String
  error : String
deriving DecidableEq

/-- The loop body for one stock (views.py lines 350-385): on a dict
with a non-None price, persist the updated stock and serialize it; on a
None result or a None price, record a no-data error; on an exception,
record its message.  Note a price of 0 passes the is-not-None check. -/
def refreshOne (fetch : String → RefreshOutcome) (s : StockRec) :
    Except ErrorEntry (StockRec × UpdatedEntry) :=
  match fetch s.symbol with
  | .quote md =>
      if md.price ≠ none then
        let saved := updateStock s md
        .ok (saved, serializeStock saved)
      else .error { symbol := s.symbol, error := "No data available from API" }
  | .noData => .error { symbol := s.symbol, error := "No data available from API" }
  | .exn msg => .error { symbol := s.symbol, error := msg }

/-- Accumulate one stock's outcome into the (updated, errors, persisted)
accumulator, appending in loop order. -/
def refreshStep (fetch : String → RefreshOutcome)
    (acc : List UpdatedEntry × List ErrorEntry × List StockRec) (s : StockRec) :
    List UpdatedEntry × List ErrorEntry × List StockRec :=
  match refreshOne fetch s with
  | .ok (saved, entry) => (acc.1 ++ [entry], acc.2.1, acc.2.2 ++ [saved])
  | .error e => (acc.1, acc.2.1 ++ [e], acc.2.2)

/-- The JSON payload returned by the batch refresh.  persisted records
the stock rows written by stock.save() during the loop, in order. -/
structure RefreshResult where
  success : Bool
  updated : ℕ
  stocks : List UpdatedEntry
  errors : List ErrorEntry
  persisted : List StockRec
deriving DecidableEq

/-- The batch loop of refresh_stock_prices_api over a resolved
non-empty selection of stocks. -/
def refresh_stock_prices (fetch : String → RefreshOutcome)
    (stocks : List StockRec) : RefreshResult :=
  let r := stocks.foldl (refreshStep fetch)
    (([] : List UpdatedEntry), ([] : List ErrorEntry), ([] : List StockRec))
  { success := true, updated := r.1.length, stocks := r.1,
    errors := r.2.1, persisted := r.2.2 }

/-- The response entry a single stock contributes, if it succeeds. -/
def updatedEntryOf (fetch : String → RefreshOutcome) (s : StockRec) :
    Option UpdatedEntry :=
  match refreshOne fetch s with
  | .ok (_, entry) => some entry
  | .error _ => none

/-- The error entry a single stock contributes, if it fails. -/
def errorOf (fetch : String → RefreshOutcome) (s : StockRec) : Option ErrorEntry :=
  match refreshOne fetch s with
  | .ok _ => none
  | .error e => some e

/-- The persisted row a single stock contributes, if it succeeds. -/
def persistedOf (fetch : String → RefreshOutcome) (s : StockRec) : Option StockRec :=
  match refreshOne fetch s with
  | .ok (saved, _) => some saved
  | .error _ => none

/-- A stock whose fetch succeeds in the demo batch. -/
def wsA : StockRec :=
  { pk := 10, symbol := "AAA", name := "A", current_price := some 1,
    change := none, change_percent := none, volume := none, high := none, low := none }

/-- A stock whose fetch fails in the demo batch. -/
def wsB : StockRec :=
  { pk := 11, symbol := "BBB", name := "B", current_price := none,
    change := none, change_percent := none, volume := none, high := none, low := none }

/-- Another stock whose fetch succeeds in the demo batch. -/
def wsC : StockRec :=
  { pk := 12, symbol := "CCC", name := "C", current_price := some 4,
    change := none, change_percent := none, volume := none, high := none, low := none }

/-- A demo oracle: quotes for AAA and CCC, no data for anything else. -/
def demoFetch : String → RefreshOutcome := fun sym =>
  if sym = "AAA" then
    .quote { price := some 5, change := some 1, change_percent := none,
             volume := some 100, high := none, low := none }
  else if sym = "CCC" then
    .quote { price := some 7, change := none, change_percent := some 2,
             volume := none, high := some 8, low := some 6 }
  else .noData

/-- A stock all of whose stored numeric columns are exactly 0. -/
def zeroStock : StockRec :=
  { pk := 9, symbol := "ZZZ", name := "Z", current_price := some 0,
    change := some 0, change_percent := some 0, volume := some 0,
    high := some 0, low := some 0 }

/-- C4 counterexample: a 200 response whose body decodes to the JSON
number 5 is a malformed payload, and the fetcher raises an
AttributeError past its boundary instead of returning the no-data
result. -/
theorem fetch_nonobject_payload_cex :
    fetch_stock_from_psx [] "GAL" (fun _ => .response 200 (.ok (.num 5))) =
      .error "AttributeError: payload object has no attribute get" := rfl

/-- C4 (amended): the fetcher passes the fixed timeout 10 to the
provider and depends on nothing else about it; an empty symbol, a
request exception (network error, timeout, undecodable body), a non-200
status, a falsy success flag, a falsy or missing data field, and a
null or missing price each yield the no-data result without raising;
and a decoded object payload with truthy success, object data and
non-None price yields the normalized quote.  (A non-object payload, or
a truthy non-object data field, instead escapes as an AttributeError,
as the counterexample shows.) -/
theorem fetch_failure_modes (table : List (String × String)) (sym : String) :
    PSX_TIMEOUT = 10 ∧
    (∀ w : HttpWorld, fetch_stock_from_psx table "" w = .ok none) ∧
    (∀ w₁ w₂ : HttpWorld, w₁ PSX_TIMEOUT = w₂ PSX_TIMEOUT →
      fetch_stock_from_psx table sym w₁ = fetch_stock_from_psx table sym w₂) ∧
    (∀ (w : HttpWorld) (msg : String), w PSX_TIMEOUT = .requestError msg →
      fetch_stock_from_psx table sym w = .ok none) ∧
    (∀ (w : HttpWorld) (status : ℕ) (body : Except String JVal),
      w PSX_TIMEOUT = .response status body → status ≠ 200 →
      fetch_stock_from_psx table sym w = .ok none) ∧
    (∀ (w : HttpWorld) (msg : String), w PSX_TIMEOUT = .response 200 (.error msg) →
      fetch_stock_from_psx table sym w = .ok none) ∧
    (∀ (w : HttpWorld) (pf : List (String × JVal)),
      w PSX_TIMEOUT = .response 200 (.ok (.obj pf)) →
      (dictGet pf "success").truthy = false →
      fetch_stock_from_psx table sym w = .ok none) ∧
    (∀ (w : HttpWorld) (pf : List (String × JVal)),
      w PSX_TIMEOUT = .response 200 (.ok (.obj pf)) →
      (dictGet pf "data").truthy = false →
      fetch_stock_from_psx table sym w = .ok none) ∧
    (∀ (w : HttpWorld) (pf df : List (String × JVal)),
      w PSX_TIMEOUT = .response 200 (.ok (.obj pf)) →
      dictGet pf "data" = .obj df →
      (dictGet df "price").isNull = true →
      fetch_stock_from_psx table sym w = .ok none) ∧
    (∀ (w : HttpWorld) (pf df : List (String × JVal)),
      sym ≠ "" →
      w PSX_TIMEOUT = .response 200 (.ok (.obj pf)) →
      (dictGet pf "success").truthy = true →
      dictGet pf "data" = .obj df →
      (dictGet df "price").isNull = false →
      fetch_stock_from_psx table sym w = .ok (some
        { symbol := sym, name := (table.lookup sym.toUpper).getD sym.toUpper,
          price := dictGet df "price", change := dictGet df "change",
          change_percent := dictGet df "changePercent", volume := dictGet df "volume",
          high := dictGet df "high", low := dictGet df "low" })) := by
  refine ⟨rfl, ?_, ?_, ?_, ?_, ?_, ?_, ?_, ?_, ?_⟩
  · intro w
    simp [fetch_stock_from_psx]
  · intro w₁ w₂ h
    by_cases hsym : sym = ""
    · simp [fetch_stock_from_psx, hsym]
    · simp only [fetch_stock_from_psx, hsym]
      rw [h]
  · intro w msg hw
    by_cases hsym : sym = ""
    · simp [fetch_stock_from_psx, hsym]
    · simp [fetch_stock_from_psx, hsym, hw]
  · intro w status body hw h200
    by_cases hsym : sym = ""
    · simp [fetch_stock_from_psx, hsym]
    · simp [fetch_stock_from_psx, hsym, hw, h200]
  · intro w msg hw
    by_cases hsym : sym = ""
    · simp [fetch_stock_from_psx, hsym]
    · simp [fetch_stock_from_psx, hsym, hw]
  · intro w pf hw hsucc
    by_cases hsym : sym = ""
    · simp [fetch_stock_from_psx, hsym]
    · simp [fetch_stock_from_psx, hsym, hw, hsucc]
  · intro w pf hw hdata
    by_cases hsym : sym = ""
    · simp [fetch_stock_from_psx, hsym]
    · simp only [fetch_stock_from_psx, hsym, hw, if_false, ite_false]
      by_cases hsucc : (dictGet pf "success").truthy
      · cases hd : dictGet pf "data" with
        | obj df =>
          rw [hd] at hdata
          have hdf : df = [] := by
            cases df with
            | nil => rfl
            | cons a l => simp [JVal.truthy] at hdata
          subst hdf
          have hp : (dictGet ([] : List (String × JVal)) "price").isNull = true := rfl
          simp [hsucc, hd, hp]
        | null =>
          have hn : JVal.null.truthy = false := rfl
          simp [hsucc, hd, hn]
        | bool b =>
          rw [hd] at hdata
          simp [hsucc, hd, hdata]
        | num q =>
          rw [hd] at hdata
          simp [hsucc, hd, hdata]
        | str s =>
          rw [hd] at hdata
          simp [hsucc, hd, hdata]
        | arr xs =>
          rw [hd] at hdata
          simp [hsucc, hd, hdata]
      · simp [hsucc]
  · intro w pf df hw hd hnull
    by_cases hsym : sym = ""
    · simp [fetch_stock_from_psx, hsym]
    · by_cases hsucc : (dictGet pf "success").truthy
      · simp [fetch_stock_from_psx, hsym, hw, hsucc, hd, hnull]
      · simp [fetch_stock_from_psx, hsym, hw, hsucc]
  · intro w pf df hsym hw hsucc hd hnull
    simp [fetch_stock_from_psx, hsym, hw, hsucc, hd, hnull]

/-- C4 witness: the amended theorem applied to a provider that answers
status 500, and to one that raises a timeout. -/
theorem fetch_failure_modes_witness :
    fetch_stock_from_psx [] "GAL" (fun _ => .response 500 (.ok .null)) = .ok none ∧
    fetch_stock_from_psx [] "GAL" (fun _ => .requestError "timeout") = .ok none :=
  ⟨(fetch_failure_modes [] "GAL").2.2.2.2.1 (fun _ => .response 500 (.ok .null))
      500 (.ok .null) rfl (by decide),
   (fetch_failure_modes [] "GAL").2.2.2.1 (fun _ => .requestError "timeout") "timeout" rfl⟩

/-- The refresh fold appends each stock's contributions independently,
in order. -/
theorem refresh_foldl (fetch : String → RefreshOutcome) (stocks : List StockRec)
    (acc : List UpdatedEntry × List ErrorEntry × List StockRec) :
    stocks.foldl (refreshStep fetch) acc =
      (acc.1 ++ stocks.filterMap (updatedEntryOf fetch),
       acc.2.1 ++ stocks.filterMap (errorOf fetch),
       acc.2.2 ++ stocks.filterMap (persistedOf fetch)) := by
  induction stocks generalizing acc with
  | nil => simp
  | cons s ss ih =>
    simp only [List.foldl_cons, List.filterMap_cons]
    rw [ih]
    cases h : refreshOne fetch s with
    | ok p =>
      cases p with
      | mk saved entry =>
        simp [refreshStep, updatedEntryOf, errorOf, persistedOf, h]
    | error e =>
      simp [refreshStep, updatedEntryOf, errorOf, persistedOf, h]

/-- C5: for every oracle and non-empty stock selection, the batch
result is assembled per stock independently: the updated-entry list,
the error list and the persisted rows are each the filterMap of the
per-stock outcome over the selection (so one failure never drops or
aborts the others), the reported count is the length of the updated
list, the success flag is set, every error entry carries the failing
stock's symbol and a reason, and every successful fetch persists the
updated row and serializes exactly that row. -/
theorem refresh_batch_fault_tolerance (fetch : String → RefreshOutcome)
    (stocks : List StockRec) (_hne : stocks ≠ []) :
    (refresh_stock_prices fetch stocks).stocks = stocks.filterMap (updatedEntryOf fetch) ∧
    (refresh_stock_prices fetch stocks).errors = stocks.filterMap (errorOf fetch) ∧
    (refresh_stock_prices fetch stocks).persisted = stocks.filterMap (persistedOf fetch) ∧
    (refresh_stock_prices fetch stocks).updated =
      (stocks.filterMap (updatedEntryOf fetch)).length ∧
    (refresh_stock_prices fetch stocks).success = true ∧
    (∀ (s : StockRec) (e : ErrorEntry), refreshOne fetch s = .error e →
      e.symbol = s.symbol) ∧
    (∀ (s : StockRec) (md : StockQuote), fetch s.symbol = .quote md → md.price ≠ none →
      refreshOne fetch s = .ok (updateStock s md, serializeStock (updateStock s md))) := by
  have hfold := refresh_foldl fetch stocks ([], [], [])
  refine ⟨?_, ?_, ?_, ?_, rfl, ?_, ?_⟩
  · simp [refresh_stock_prices, hfold]
  · simp [refresh_stock_prices, hfold]
  · simp [refresh_stock_prices, hfold]
  · simp [refresh_stock_prices, hfold]
  · intro s e he
    cases hf : fetch s.symbol with
    | quote md =>
      simp only [refreshOne, hf] at he
      by_cases hp : md.price ≠ none
      · simp [hp] at he
      · simp only [hp, if_false, ite_false] at he
        cases he
        rfl
    | noData =>
      simp only [refreshOne, hf] at he
      cases he
      rfl
    | exn msg =>
      simp only [refreshOne, hf] at he
      cases he
      rfl
  · intro s md hf hp
    simp [refreshOne, hf, hp]

/-- C5 witness: the batch theorem applied to the concrete non-empty
selection AAA, BBB, CCC under the demo oracle, where BBB fails. -/
theorem refresh_batch_fault_tolerance_witness :
    (refresh_stock_prices demoFetch [wsA, wsB, wsC]).stocks =
      [wsA, wsB, wsC].filterMap (updatedEntryOf demoFetch) ∧
    (refresh_stock_prices demoFetch [wsA, wsB, wsC]).errors =
      [wsA, wsB, wsC].filterMap (errorOf demoFetch) ∧
    (refresh_stock_prices demoFetch [wsA, wsB, wsC]).persisted =
      [wsA, wsB, wsC].filterMap (persistedOf demoFetch) :=
  ⟨(refresh_batch_fault_tolerance demoFetch [wsA, wsB, wsC] (by simp)).1,
   (refresh_batch_fault_tolerance demoFetch [wsA, wsB, wsC] (by simp)).2.1,
   (refresh_batch_fault_tolerance demoFetch [wsA, wsB, wsC] (by simp)).2.2.1⟩

/-- C10: the batch response serializes a stored numeric value of
exactly 0 as null: for every stock row, each of the six columns, when
equal to 0, is serialized as none in the updated-stocks entry, and
every entry of the batch result is exactly the serialization of the
persisted row it came from. -/
theorem refresh_zero_serializes_null (s : StockRec) :
    (s.current_price = some 0 → (serializeStock s).current_price = none) ∧
    (s.change = some 0 → (serializeStock s).change = none) ∧
    (s.change_percent = some 0 → (serializeStock s).change_percent = none) ∧
    (s.volume = some 0 → (serializeStock s).volume = none) ∧
    (s.high = some 0 → (serializeStock s).high = none) ∧
    (s.low = some 0 → (serializeStock s).low = none) ∧
    (∀ (fetch : String → RefreshOutcome) (saved : StockRec) (entry : UpdatedEntry),
      refreshOne fetch s = .ok (saved, entry) → entry = serializeStock saved) := by
  refine ⟨?_, ?_, ?_, ?_, ?_, ?_, ?_⟩
  · intro h
    simp [serializeStock, serializeDec, h]
  · intro h
    simp [serializeStock, serializeDec, h]
  · intro h
    simp [serializeStock, serializeDec, h]
  · intro h
    simp [serializeStock, serializeInt, h]
  · intro h
    simp [serializeStock, serializeDec, h]
  · intro h
    simp [serializeStock, serializeDec, h]
  · intro fetch saved entry he
    cases hf : fetch s.symbol with
    | quote md =>
      simp only [refreshOne, hf] at he
      by_cases hp : md.price ≠ none
      · rw [if_pos hp] at he
        cases he
        rfl
      · rw [if_neg hp] at he
        simp at he
    | noData => simp [refreshOne, hf] at he
    | exn msg => simp [refreshOne, hf] at he

/-- C10 witness: the serialization theorem applied to a stock whose
stored columns are all 0. -/
theorem refresh_zero_serializes_null_witness :
    (serializeStock zeroStock).current_price = none ∧
    (serializeStock zeroStock).volume = none ∧
    (serializeStock zeroStock).low = none :=
  ⟨(refresh_zero_serializes_null zeroStock).1 rfl,
   (refresh_zero_serializes_null zeroStock).2.2.2.1 rfl,
   (refresh_zero_serializes_null zeroStock).2.2.2.2.2.1 rfl⟩

end TradingApp
